import Mathlib

/-!
# Verification of the BackcountrySaftey Utah avalanche scraper

Shallow embedding of `src/scrapers/utah_scraper.py`, `src/scrapers/snowpilot.py`
and `src/scrapers/exceptions.py`.

Modelling conventions:
* `BeautifulSoup` documents are modelled as flat, document-ordered sibling lists
  of elements (`Elem`), matching the label/value sibling convention the scraper
  relies on; avalanche-problem `fieldset`s are carried separately, and the map
  `<script>` block is carried as the string of the first script matching
  `window.Backdrop` (absent when no such script exists).
* The network and the XML parser are modelled as an explicit `World` of fetch
  functions returning `Option` (failure = `none`), since the Python code only
  observes success/failure and the parsed result.
* Python exceptions are an explicit `PyError` type; fallible functions return
  `Except PyError`.
* Python `float` values produced from digit/dot strings are modelled exactly as
  rationals `n / 10 ^ k` (a pair of naturals); Python's `round` is
  round-half-to-even.  Coordinates are kept as their literal strings (the code
  only passes them through).
* Python string helpers (`split`, `strip`, `lower`, substring test) are
  re-implemented structurally on character lists so that every definition
  evaluates inside the kernel.
-/

namespace Scrape

/-! ## Python-style string primitives -/

/-- `str.lower()` (ASCII, which is all the code compares). -/
def strLower (s : String) : String := String.mk (s.data.map Char.toLower)

/-- `str.strip()`: drop whitespace from both ends. -/
def strTrim (s : String) : String :=
  String.mk (((s.data.dropWhile Char.isWhitespace).reverse.dropWhile Char.isWhitespace).reverse)

/-- Does `pat` occur at the head of the character list? -/
def matchPat : List Char → List Char → Bool
  | [], _ => true
  | _ :: _, [] => false
  | p :: ps, c :: cs => p == c && matchPat ps cs

/-- Fuel-driven worker for `strSplit`; fuel bounds the number of iterations. -/
def splitGo (pat : List Char) : Nat → List Char → List Char → List (List Char)
  | _, [], acc => [acc.reverse]
  | 0, l, acc => [acc.reverse ++ l]
  | fuel + 1, c :: cs, acc =>
    if matchPat pat (c :: cs) then
      acc.reverse :: splitGo pat fuel ((c :: cs).drop pat.length) []
    else
      splitGo pat fuel cs (c :: acc)

/-- Python `s.split(sep)` for a non-empty separator (the only use in the code). -/
def strSplit (s sep : String) : List String :=
  (splitGo sep.data (s.data.length + 1) s.data []).map String.mk

/-- Python `pat in s` (substring test). -/
def strHas (s pat : String) : Bool := (strSplit s pat).length != 1

/-! ## Numeric-token helpers: `re.findall(r"[\d\.]+", s)` and `float` -/

/-- Character class of the regex `[\d\.]`. -/
def numChar (c : Char) : Bool := c.isDigit || c == '.'

/-- Worker for `numTokens`, accumulating the current run of `[\d\.]` chars. -/
def numTokensGo : List Char → List Char → List String
  | [], acc => if acc.isEmpty then [] else [String.mk acc.reverse]
  | c :: cs, acc =>
    if numChar c then numTokensGo cs (c :: acc)
    else if acc.isEmpty then numTokensGo cs []
    else String.mk acc.reverse :: numTokensGo cs []

/-- `re.findall(r"[\d\.]+", s)`: all maximal runs of digits and dots. -/
def numTokens (s : String) : List String := numTokensGo s.data []

/-- Value of a digit string (callers only pass digit characters). -/
def digitsToNat (l : List Char) : Nat := l.foldl (fun n c => n * 10 + (c.toNat - 48)) 0

/-- Python `float(s)` restricted to strings of digits and dots — the only
    strings the code ever passes to it (joins of `numTokens`).  The result is
    the exact value as a pair `(n, k)` meaning `n / 10 ^ k`; `none` models
    `ValueError`.  Accepts `"5."`, `".5"`; rejects `""`, `"."`, `"1.2.3"`. -/
def parseDigitsDots (s : String) : Option (Nat × Nat) :=
  if s.data.all numChar then
    match strSplit s "." with
    | [a] => if a.isEmpty then none else some (digitsToNat a.data, 0)
    | [a, b] =>
      if a.isEmpty && b.isEmpty then none
      else some (digitsToNat a.data * 10 ^ b.data.length + digitsToNat b.data, b.data.length)
    | _ => none
  else none

/-- Python `round(n / m)` for naturals with `m > 0`: round half to even. -/
def roundHalfEven (n m : Nat) : Nat :=
  let q := n / m
  let r := n % m
  if 2 * r < m then q
  else if m < 2 * r then q + 1
  else if q % 2 == 0 then q else q + 1

/-! ## Exceptions (`src/scrapers/exceptions.py` plus the Python builtins the
    code actually raises) -/

inductive PyError where
  | typeError
  | valueError (msg : String)
  | attributeError
  | indexError
  | networkError (url : String) (msg : String)
  | dataExtractionError (field : String)
  | invalidDataError (field : String) (value : String)
  | parsingError (contentType : String)
  | snowPilotError (url : String) (msg : String)
  deriving Repr, DecidableEq

instance {ε α : Type} [DecidableEq ε] [DecidableEq α] : DecidableEq (Except ε α) :=
  fun x y =>
    match x, y with
    | .ok a, .ok b => decidable_of_iff (a = b) (by simp)
    | .ok _, .error _ => isFalse (by simp)
    | .error _, .ok _ => isFalse (by simp)
    | .error e, .error f => decidable_of_iff (e = f) (by simp)

def PyError.isDataExtraction : PyError → Bool
  | .dataExtractionError _ => true
  | _ => false

def PyError.isInvalidData : PyError → Bool
  | .invalidDataError _ _ => true
  | _ => false

def PyError.isParsing : PyError → Bool
  | .parsingError _ => true
  | _ => false

def PyError.isNetwork : PyError → Bool
  | .networkError _ _ => true
  | _ => false

/-! ## Document model -/

/-- One HTML element in a document-ordered sibling list: tag, class list, and
    its (raw) text.  `text` stands both for BeautifulSoup's `.string` (compared
    raw) and, trimmed, for `.get_text(strip=True)`. -/
structure Elem where
  tag : String
  classes : List String
  text : String
  deriving Repr, DecidableEq, Inhabited

/-- A `fieldset` used by `get_avalanche_problem`. -/
structure Fieldset where
  classes : List String
  elems : List Elem
  deriving Repr, DecidableEq, Inhabited

/-- A parsed report page (`BeautifulSoup` of an observation/avalanche page).
    `mapScript` is the `.string` of the first `<script>` matching the
    `window.Backdrop` search, or `none` when no such script exists. -/
structure ReportPage where
  elems : List Elem
  mapScript : Option String
  fieldsets : List Fieldset
  deriving Repr, DecidableEq, Inhabited

/-- An anchor (`<a>`): its `href` attribute (possibly absent) and visible text. -/
structure Anchor where
  href : Option String
  text : String
  deriving Repr, DecidableEq, Inhabited

/-- The `div.view-content` container of the search page. -/
structure ContentDiv where
  table : Option (List Anchor)
  deriving Repr, DecidableEq, Inhabited

/-- The parsed observations search page. -/
structure SearchDoc where
  viewContent : Option ContentDiv
  deriving Repr, DecidableEq, Inhabited

/-- The root element of a SnowPilot XML document: the attributes and the
    nested `Location` element (`location = some e` when the element exists,
    `e` being its optional `elv` attribute) the client reads. -/
structure XmlRoot where
  aspect : Option String
  incline : Option String
  lat : Option String
  longitude : Option String
  location : Option (Option String)
  deriving Repr, DecidableEq, Inhabited

/-- The external network/parse world: each fetch returns `none` on any
    transport or parse failure (the code only distinguishes success from
    failure).  `spXml` is keyed by the href of the chosen anchor (absolute-URL
    resolution via `urljoin` is absorbed into the fetch capability). -/
structure World where
  searchPage : Option SearchDoc
  reportPage : String → Option ReportPage
  spPage : String → Option (List Anchor)
  spXml : String → Option XmlRoot

/-! ## SnowPilot client (`src/scrapers/snowpilot.py`) -/

/-- `SnowPilotClient._load_xml`: fetch the HTML page, find the first anchor
    with an `href` whose visible text contains "xml" (case-insensitively),
    fetch and parse the linked XML.  Every failure path returns `none`. -/
def load_xml (w : World) (url : String) : Option XmlRoot :=
  match w.spPage url with
  | none => none
  | some anchors =>
    match anchors.find? (fun a => a.href.isSome && strHas (strLower a.text) "xml") with
    | none => none
    | some a => a.href.bind w.spXml

/-- `SnowPilotClient.__init__`: raises `SnowPilotError` whenever `_load_xml`
    yields no root, regardless of why. -/
def mkSnowPilot (w : World) (url : String) : Except PyError XmlRoot :=
  match load_xml w url with
  | none => .error (.snowPilotError url "Failed to load SnowPilot XML data")
  | some root => .ok root

/-- The ordered 8-point compass table of `_degrees_to_compass`. -/
def directions : List String := ["N", "NE", "E", "SE", "S", "SW", "W", "NW"]

/-- `SnowPilotClient._degrees_to_compass`: join all `[\d\.]+` tokens of the
    input, parse as a float, and index `directions` at `round(d / 45) % 8`.
    `none` both for absent input and for a failed `float(...)` (`ValueError`).
    The index is always `< 8`, so the lookup never misses. -/
def degreesToCompass : Option String → Option String
  | none => none
  | some s =>
    match parseDigitsDots (String.join (numTokens s)) with
    | none => none
    | some (n, k) => directions[roundHalfEven n (45 * 10 ^ k) % 8]?

/-- Property `SnowPilotClient.aspect` (root is non-`None` after `__init__`). -/
def XmlRoot.aspectCompass (r : XmlRoot) : Option String := degreesToCompass r.aspect

/-- Property `SnowPilotClient.elevation`: `Location` element's `elv`. -/
def XmlRoot.elv (r : XmlRoot) : Option String :=
  match r.location with
  | none => none
  | some e => e

/-! ## Utah scraper (`src/scrapers/utah_scraper.py`) -/

/-- The scraper's per-date state set up by `UtahScraper.__init__`. -/
structure UtahScraper where
  day : String
  month : String
  year : String
  url : String
  deriving Repr, DecidableEq, Inhabited

/-- The region-name-to-id table (`lookup`, utah_scraper.py:27). -/
def regionTable : List (String × Nat) :=
  [("Logan", 1), ("Ogden", 2), ("Uintas", 3), ("Salt Lake", 4), ("Provo", 5),
   ("Skyline", 6), ("Moab", 7), ("Abajos", 8), ("Southwest", 9)]

/-- `lookup.get(name)`. -/
def regionId (name : String) : Option Nat := (regionTable.find? (·.1 == name)).map (·.2)

/-- Find the first element satisfying `p` and return its following siblings. -/
def findWithRest (p : Elem → Bool) : List Elem → Option (List Elem)
  | [] => none
  | e :: rest => if p e then some rest else findWithRest p rest

/-- Predicate for `find("div", class_="field-label", string=label)`. -/
def isFieldLabel (label : String) (e : Elem) : Bool :=
  e.tag == "div" && e.classes.contains "field-label" && e.text == label

/-- `UtahScraper.get_field_value`: locate the label div, return the trimmed
    text of its next `div` sibling; `none` if label or sibling is missing. -/
def get_field_value (page : ReportPage) (label : String) : Option String :=
  match findWithRest (isFieldLabel label) page.elems with
  | none => none
  | some rest => (rest.find? (fun e => e.tag == "div")).map (fun e => strTrim e.text)

/-- Character class `[-\d.]` of the WKT coordinate capture groups. -/
def coordChar (c : Char) : Bool := c.isDigit || c == '-' || c == '.'

/-- Embeds the `re.search` at utah_scraper.py:108-112 for
    `geofield_formatter" ... "wkt" : "POINT (lon lat)"`.  Simplified to
    anchored substring scanning (faithful on inputs where the literal occurs in
    well-formed JSON): requires `geofield_formatter` and `wkt` before the first
    `POINT (`, then captures the two `[-\d.]+` groups closed by `)"`.
    Coordinates are returned as their literal strings (Python converts them to
    `float`, which the rest of the code only passes through). -/
def parsePointWkt (s : String) : Option (String × String) :=
  match strSplit s "POINT (" with
  | pre :: post :: _ =>
    if strHas pre "geofield_formatter" && strHas pre "wkt" then
      match post.data.span coordChar with
      | (t1, ' ' :: r2) =>
        match r2.span coordChar with
        | (t2, ')' :: '"' :: _) =>
          if t1.isEmpty || t2.isEmpty then none
          else some (String.mk t1, String.mk t2)
        | _ => none
      | _ => none
    else none
  | _ => none

/-- `UtahScraper.get_lat_lon`.  When no script matches `window.Backdrop`,
    `script_tag` is `None` and `script_tag.string` raises `AttributeError`
    (utah_scraper.py:106-111).  Otherwise: use the WKT literal if it parses,
    else fall back to the "Snow Pilot URL" field and the SnowPilot client,
    returning `(longitude, latitude)`, both `none` when nothing yields
    coordinates (client failure included). -/
def get_lat_lon (w : World) (page : ReportPage) :
    Except PyError (Option String × Option String) :=
  match page.mapScript with
  | none => .error .attributeError
  | some s =>
    match parsePointWkt s with
    | some (lon, lat) => .ok (some lon, some lat)
    | none =>
      match get_field_value page "Snow Pilot URL" with
      | none => .ok (none, none)
      | some spUrl =>
        match mkSnowPilot w spUrl with
        | .error _ => .ok (none, none)
        | .ok root => .ok (root.longitude, root.lat)

/-- `UtahScraper.get_region`: read the "Region" field, split on `»`, strip
    each part, return (first, last).  A missing field is `None` in Python and
    `None.split` raises `AttributeError`. -/
def get_region (page : ReportPage) : Except PyError (String × String) :=
  match get_field_value page "Region" with
  | none => .error .attributeError
  | some region =>
    let parts := (strSplit region "»").map strTrim
    .ok (parts.headD "", parts.getLastD "")

/-- Slope-angle normalization inside `get_snow_profile` (utah_scraper.py:173-177):
    a literal (case-insensitive) "unknown" becomes absent, otherwise the value
    is reduced to its `[\d\.]+` characters. -/
def normSlope : Option String → Option String
  | none => none
  | some s => if strLower s == "unknown" then none else some (String.join (numTokens s))

/-- Python truthiness of an optional string: `None` and `""` are falsy. -/
def truthy : Option String → Bool
  | none => false
  | some s => s != ""

/-- Python `x or y` on optional strings. -/
def pyOr (a b : Option String) : Option String := if truthy a then a else b

/-- `UtahScraper.get_snow_profile`: read aspect/elevation/slope angle from the
    page; if all three are non-`None` return them; otherwise, when a
    "Snow Pilot URL" field exists, construct the client and fill each field
    with `x or client.x` (client failure yields `(None, None, None)`). -/
def get_snow_profile (w : World) (page : ReportPage) :
    Option String × Option String × Option String :=
  let aspect := get_field_value page "Aspect"
  let elevation := get_field_value page "Elevation"
  let slope_angle := normSlope (get_field_value page "Slope Angle")
  if aspect.isSome && elevation.isSome && slope_angle.isSome then
    (aspect, elevation, slope_angle)
  else
    match get_field_value page "Snow Pilot URL" with
    | none => (aspect, elevation, slope_angle)
    | some spUrl =>
      match mkSnowPilot w spUrl with
      | .error _ => (none, none, none)
      | .ok root =>
        (pyOr aspect root.aspectCompass, pyOr elevation root.elv,
         pyOr slope_angle root.incline)

/-- Predicate for `find("div", string=lambda t: t and t.strip() == "Red Flags")`. -/
def isRedFlagsLabel (e : Elem) : Bool :=
  e.tag == "div" && e.text != "" && strTrim e.text == "Red Flags"

/-- The sibling walk of `get_red_flags`: stop at the first sibling with class
    `field-label`, collect the trimmed text of every sibling with class
    `text_02`. -/
def collectFlags : List Elem → List String
  | [] => []
  | e :: rest =>
    if e.classes.contains "field-label" then []
    else if e.classes.contains "text_02" then strTrim e.text :: collectFlags rest
    else collectFlags rest

/-- `UtahScraper.get_red_flags`: `none` when no div's string strips to
    "Red Flags", else the (possibly empty) collected list. -/
def get_red_flags (page : ReportPage) : Option (List String) :=
  match findWithRest isRedFlagsLabel page.elems with
  | none => none
  | some rest => some (collectFlags rest)

/-- The label/value mapping built inside `get_avalanche_problem`: for every
    `div.field-label` of the fieldset, pair its trimmed text with the trimmed
    text of its next sibling `div` with class attribute exactly
    `"text_02 mb2"` (`None` when there is no such sibling). -/
def problemPairs : List Elem → List (String × Option String)
  | [] => []
  | e :: rest =>
    if e.tag == "div" && e.classes.contains "field-label" then
      (strTrim e.text,
        (rest.find? (fun v => v.tag == "div" && v.classes == ["text_02", "mb2"])).map
          (fun v => strTrim v.text)) :: problemPairs rest
    else problemPairs rest

/-- Python `dict` built by insertion with overwrite, then `.get k`: the last
    binding of `k` wins; a stored `None` and a missing key are both `None`. -/
def dictGet (pairs : List (String × Option String)) (k : String) : Option String :=
  match (pairs.filter (·.1 == k)).getLast? with
  | none => none
  | some (_, v) => v

/-- `UtahScraper.get_avalanche_problem`: find the fieldset with class
    `group-avy-problem-<index>`; absent ⇒ `(None, None)`; else read "Problem"
    and "Trend" from the label/value mapping. -/
def get_avalanche_problem (index : Nat) (page : ReportPage) :
    Option String × Option String :=
  match page.fieldsets.find?
      (fun f => f.classes.contains ("group-avy-problem-" ++ toString index)) with
  | none => (none, none)
  | some fs =>
    let data := problemPairs fs.elems
    (dictGet data "Problem", dictGet data "Trend")

/-! ## Record shapes -/

/-- The `base_info` dict of `_get_base_info`. -/
structure BaseInfo where
  report_id : String
  state_id : Nat
  state_name : String
  report_url : String
  observation_date : String
  location_name : String
  region_id : Option Nat
  region_name : String
  sub_region_name : String
  latitude : Option String
  longitude : Option String
  elevation_ft : Option String
  aspect : Option String
  slope_angle : Option String
  deriving Repr, DecidableEq, Inhabited

/-- The `avalanche_information` dict of `_normalize_avalanche`. -/
structure AvalancheInfo where
  report_id : String
  avalanche_date : String
  trigger : Option String
  trigger_additional : Option String
  avalanche_type : Option String
  problem : Option String
  weak_layer : Option String
  depth : Option String
  width_feet : Option String
  vertical_feet : Option String
  caught : Option String
  carried : Option String
  deriving Repr, DecidableEq, Inhabited

/-- The `snow_observations` dict of `_normalize_observation`. -/
structure ObservationInfo where
  red_flags : Option (List String)
  new_snow_depth : Option String
  new_snow_density : Option String
  snow_surface_conditions : Option String
  avy_problem_1 : Option String
  avy_problem_1_trend : Option String
  avy_problem_2 : Option String
  avy_problem_2_trend : Option String
  today_rating : Option String
  tomorrow_rating : Option String
  report_id : String
  deriving Repr, DecidableEq, Inhabited

/-- `web_url.split("/")[-1]`: the trailing path segment of a URL. -/
def lastSegment (url : String) : String := (strSplit url "/").getLastD ""

/-! ## Long-form date parsing (`datetime.strptime(s, "%A, %B %d, %Y")`) -/

/-- Full weekday names; `strptime` matches them case-insensitively. -/
def weekdayNames : List String :=
  ["monday", "tuesday", "wednesday", "thursday", "friday", "saturday", "sunday"]

/-- Full month names (lowercased) with their numbers. -/
def monthNames : List (String × Nat) :=
  [("january", 1), ("february", 2), ("march", 3), ("april", 4), ("may", 5),
   ("june", 6), ("july", 7), ("august", 8), ("september", 9), ("october", 10),
   ("november", 11), ("december", 12)]

def isLeap (y : Nat) : Bool := y % 4 == 0 && (y % 100 != 0 || y % 400 == 0)

def daysInMonth (y m : Nat) : Nat :=
  if m == 2 then (if isLeap y then 29 else 28)
  else if [4, 6, 9, 11].contains m then 30
  else 31

def allDigits (s : String) : Bool := !s.data.isEmpty && s.data.all Char.isDigit

/-- `datetime.strptime(s, "%A, %B %d, %Y")` as `(year, month, day)`; `none`
    models the `ValueError` for a non-matching string or an invalid calendar
    date.  The weekday name is matched but (as in Python) not checked for
    consistency with the date. -/
def parseLongDate (s : String) : Option (Nat × Nat × Nat) :=
  match strSplit s ", " with
  | [wd, mid, yr] =>
    if weekdayNames.contains (strLower wd) then
      match strSplit mid " " with
      | [mn, dy] =>
        match monthNames.find? (·.1 == strLower mn) with
        | none => none
        | some (_, m) =>
          if allDigits dy && decide (dy.data.length ≤ 2) && allDigits yr
              && yr.data.length == 4 then
            let d := digitsToNat dy.data
            let y := digitsToNat yr.data
            if 1 ≤ d ∧ d ≤ daysInMonth y m then some (y, m, d) else none
          else none
      | _ => none
    else none
  | _ => none

def pad2 (n : Nat) : String := if n < 10 then "0" ++ toString n else toString n

/-- `.strftime("%Y-%m-%d")`. -/
def fmtYmd : Nat × Nat × Nat → String
  | (y, m, d) => toString y ++ "-" ++ pad2 m ++ "-" ++ pad2 d

/-! ## Normalization (`_get_base_info`, `_normalize_*`) -/

/-- `UtahScraper._get_base_info`.  Raise order follows the source:
    `get_lat_lon`, then `get_region`, then the location-name extraction inside
    the dict literal, which raises `AttributeError` when the
    "Location Name or Route" label (or its value sibling) is missing. -/
def get_base_info (sc : UtahScraper) (w : World) (web_url : String)
    (page : ReportPage) : Except PyError BaseInfo :=
  match get_lat_lon w page with
  | .error e => .error e
  | .ok coords =>
    match get_region page with
    | .error e => .error e
    | .ok regions =>
      match findWithRest (isFieldLabel "Location Name or Route") page.elems with
      | none => .error .attributeError
      | some rest =>
        match rest.find? (fun e => e.tag == "div") with
        | none => .error .attributeError
        | some v =>
          .ok
            { report_id := lastSegment web_url
              state_id := 45
              state_name := "Utah"
              report_url := web_url
              observation_date := sc.year ++ "-" ++ sc.month ++ "-" ++ sc.day
              location_name := strTrim v.text
              region_id := regionId regions.1
              region_name := regions.1
              sub_region_name := regions.2
              latitude := coords.2
              longitude := coords.1
              elevation_ft := (get_snow_profile w page).2.1
              aspect := (get_snow_profile w page).1
              slope_angle := (get_snow_profile w page).2.2 }

/-- `UtahScraper._normalize_avalanche`.  `strptime` on the "Avalanche Date"
    value raises `TypeError` when the field is missing (`strptime(None, fmt)`)
    and `ValueError` when the string does not parse; otherwise the date is
    reformatted as `%Y-%m-%d`.  All other fields are optional. -/
def normalize_avalanche (sc : UtahScraper) (w : World) (web_url : String)
    (page : ReportPage) : Except PyError (BaseInfo × AvalancheInfo) :=
  match get_base_info sc w web_url page with
  | .error e => .error e
  | .ok base =>
    match get_field_value page "Avalanche Date" with
    | none => .error .typeError
    | some s =>
      match parseLongDate s with
      | none => .error (.valueError "time data does not match format")
      | some ymd =>
        .ok (base,
    { report_id := lastSegment web_url
      avalanche_date := fmtYmd ymd
      trigger := get_field_value page "Trigger"
      trigger_additional := get_field_value page "Trigger: additional info"
      avalanche_type := get_field_value page "Avalanche Type"
      problem := get_field_value page "Avalanche Problem"
      weak_layer := get_field_value page "Weak Layer"
      depth := get_field_value page "Depth"
      width_feet := get_field_value page "Width"
      vertical_feet := get_field_value page "Vertical"
      caught := get_field_value page "Caught"
      carried := get_field_value page "Carried" })

/-- `UtahScraper._normalize_observation`: base info plus the observation
    detail dict; every detail field is optional. -/
def normalize_observation (sc : UtahScraper) (w : World) (web_url : String)
    (page : ReportPage) : Except PyError (BaseInfo × ObservationInfo) :=
  match get_base_info sc w web_url page with
  | .error e => .error e
  | .ok base =>
    .ok (base,
    { red_flags := get_red_flags page
      new_snow_depth := get_field_value page "New Snow Depth"
      new_snow_density := get_field_value page "New Snow Density"
      snow_surface_conditions := get_field_value page "Snow Surface Conditions"
      avy_problem_1 := (get_avalanche_problem 1 page).1
      avy_problem_1_trend := (get_avalanche_problem 1 page).2
      avy_problem_2 := (get_avalanche_problem 2 page).1
      avy_problem_2_trend := (get_avalanche_problem 2 page).2
      today_rating := get_field_value page "Today\x27s Observed Danger Rating"
      tomorrow_rating := get_field_value page "Tomorrows Estimated Danger Rating"
      report_id := lastSegment web_url })

/-! ## Session (`get_data`) and link discovery (`extract_report_links`) -/

/-- The two record shapes `get_data` can emit for one report. -/
inductive Detail where
  | avalanche (a : AvalancheInfo)
  | observation (o : ObservationInfo)
  deriving Repr, DecidableEq

/-- Python `str(x)` interpolation of an optional string (`None` prints as
    "None"); hrefs come from `a.get("href")` and may be `None`. -/
def pyStrOpt : Option String → String
  | none => "None"
  | some s => s

/-- The body of the `get_data` loop for one link (utah_scraper.py:388-408):
    build the page URL, fetch (a transport failure is caught and re-raised as
    `NetworkError`), classify by `link.split("/")[1]`, dispatch to the matching
    normalizer, and raise `ValueError` naming the segment otherwise.
    Normalization errors propagate (the `except` clause only catches
    `requests.RequestException`). -/
def processLink (sc : UtahScraper) (w : World) (link : Option String) :
    Except PyError (BaseInfo × Detail) :=
  let page_url := "https://utahavalanchecenter.org" ++ pyStrOpt link
  match w.reportPage page_url with
  | none => .error (.networkError page_url "Could not reach report page")
  | some page =>
    match link with
    | none => .error .attributeError
    | some l =>
      match (strSplit l "/")[1]? with
      | none => .error .indexError
      | some first_word =>
        if first_word == "avalanche" then
          (normalize_avalanche sc w page_url page).map (fun r => (r.1, .avalanche r.2))
        else if first_word == "observation" then
          (normalize_observation sc w page_url page).map (fun r => (r.1, .observation r.2))
        else .error (.valueError (first_word ++ " data is not currently supported"))

/-- `UtahScraper.extract_report_links`.  The whole body sits in a
    `try/except Exception` that re-raises every failure — transport failure,
    missing `div.view-content`, missing `table` — as `NetworkError(self.url, …)`
    (the Python message also interpolates `str(e)`, elided here).  A fetched
    table with no anchors yields the empty list. -/
def extract_report_links (sc : UtahScraper) (w : World) :
    Except PyError (List (Option String)) :=
  match w.searchPage with
  | none => .error (.networkError sc.url "Failed to extract report links")
  | some doc =>
    match doc.viewContent with
    | none => .error (.networkError sc.url "Failed to extract report links")
    | some vc =>
      match vc.table with
      | none => .error (.networkError sc.url "Failed to extract report links")
      | some anchors => .ok (anchors.map (·.href))

/-- `UtahScraper.get_data`: discover links, process each in order, abort on the
    first raised error. -/
def get_data (sc : UtahScraper) (w : World) :
    Except PyError (List (BaseInfo × Detail)) :=
  match extract_report_links sc w with
  | .error e => .error e
  | .ok links => links.mapM (processLink sc w)

/-! ## Result classifiers used in statements -/

def exceptIsDataExtraction {α : Type} : Except PyError α → Bool
  | .error e => e.isDataExtraction
  | .ok _ => false

def exceptIsInvalidData {α : Type} : Except PyError α → Bool
  | .error e => e.isInvalidData
  | .ok _ => false

def exceptIsParsing {α : Type} : Except PyError α → Bool
  | .error e => e.isParsing
  | .ok _ => false

/-- Modelled from the spec (refinement comparison for the compass-conversion
    claim): "extracts the first numeric token (supports decimals) from the
    input" and indexes the table at `round(degrees / 45) mod 8`. -/
def firstTokenCompass (degrees : Option String) : Option String :=
  match degrees with
  | none => none
  | some s =>
    match (numTokens s).head? with
    | none => none
    | some t =>
      match parseDigitsDots t with
      | none => none
      | some (n, k) => directions[roundHalfEven n (45 * 10 ^ k) % 8]?

/-! ## Concrete fixtures used by counterexamples and witnesses -/

/-- A `div.field-label` element. -/
def lbl (s : String) : Elem := { tag := "div", classes := ["field-label"], text := s }

/-- A bare value `div`. -/
def val (s : String) : Elem := { tag := "div", classes := [], text := s }

/-- A scraper initialized for 2025-01-15. -/
def sc0 : UtahScraper :=
  { day := "15", month := "01", year := "2025",
    url := "https://utahavalanchecenter.org/observations" }

/-- A world in which every fetch fails / finds nothing. -/
def wEmpty : World :=
  { searchPage := none, reportPage := fun _ => none,
    spPage := fun _ => none, spXml := fun _ => none }

/-- The synthetic page of the end-to-end scenario: Location "Days Fork",
    Region "Salt Lake » Days Fork", Aspect "135", Slope Angle "Unknown", no
    secondary-source link; the map script exists but holds no `POINT` literal. -/
def basePage : ReportPage :=
  { elems :=
      [lbl "Location Name or Route", val "Days Fork",
       lbl "Region", val "Salt Lake » Days Fork",
       lbl "Aspect", val "135",
       lbl "Slope Angle", val "Unknown"],
    mapScript := some "window.Backdrop = 1;",
    fieldsets := [] }

def obsUrl : String := "https://utahavalanchecenter.org/observation/99999"

def avUrl : String := "https://utahavalanchecenter.org/avalanche/77777"

/-- `basePage` plus a well-formed "Avalanche Date" field. -/
def avPage : ReportPage :=
  { basePage with
    elems := basePage.elems ++
      [lbl "Avalanche Date", val "Wednesday, January 15, 2025"] }

/-- A page with no `window.Backdrop` script at all. -/
def noScriptPage : ReportPage := { elems := [], mapScript := none, fieldsets := [] }

/-- `basePage` with a map script holding a well-formed `POINT` literal. -/
def wktPage : ReportPage :=
  { basePage with
    mapScript :=
      some "window.Backdrop geofield_formatter\x22 : \x7b \x22wkt\x22 : \x22POINT (-111.75 40.59)\x22" }

/-- A world that returns some report page for every report fetch. -/
def wPages : World := { wEmpty with reportPage := fun _ => some basePage }

/-- Merge counterexample page: an "Aspect" label whose value div is empty
    (so the field is present but the empty string), elevation and slope angle
    missing, and a Snow Pilot URL. -/
def page5 : ReportPage :=
  { elems := [lbl "Aspect", val "", lbl "Snow Pilot URL", val "spu"],
    mapScript := some "window.Backdrop = 1;",
    fieldsets := [] }

/-- The SnowPilot root used by the merge counterexample: bearing 45°. -/
def root5 : XmlRoot :=
  { aspect := some "45", incline := none, lat := none, longitude := none,
    location := none }

/-- World for the merge counterexample: the SnowPilot page "spu" links an XML
    profile that parses to `root5`. -/
def w5 : World :=
  { wEmpty with
    spPage := fun u => if u == "spu" then some [{ href := some "profile.xml", text := "View XML" }] else none,
    spXml := fun h => if h == "profile.xml" then some root5 else none }

/-- SnowPilot world whose page has an anchor, but none whose text mentions
    "xml". -/
def wNoAnchor : World :=
  { wEmpty with
    spPage := fun u => if u == "p" then some [{ href := some "h", text := "Download file" }] else none }

/-- Search world: page fetched but `div.view-content` is missing. -/
def wNoVC : World := { wEmpty with searchPage := some { viewContent := none } }

/-- Search world: results table present with zero links. -/
def wEmptyTable : World :=
  { wEmpty with searchPage := some { viewContent := some { table := some [] } } }

/-- The label div of a red-flags block (as on real pages, carrying the
    `field-label` class). -/
def rfLbl : Elem := { tag := "div", classes := ["field-label"], text := "Red Flags" }

/-- A red-flag value element. -/
def flagVal : Elem := { tag := "div", classes := ["text_02"], text := "Recent Avalanches" }

/-- A page whose "Red Flags" label is immediately followed by the next label:
    zero value siblings. -/
def pageEmptyFlags : ReportPage :=
  { elems := [rfLbl, lbl "New Snow Depth", val "4\x22"],
    mapScript := none, fieldsets := [] }

/-- A page with one red flag value after the label. -/
def pageOneFlag : ReportPage :=
  { elems := [rfLbl, flagVal], mapScript := none, fieldsets := [] }

/-- The successful avalanche normalization result on `avPage` (the fallback
    arm is unreachable). -/
def avResult : BaseInfo × AvalancheInfo :=
  match normalize_avalanche sc0 wEmpty avUrl avPage with
  | .ok r => r
  | .error _ => default

/-- The successful observation normalization result on `basePage`. -/
def obsResult : BaseInfo × ObservationInfo :=
  match normalize_observation sc0 wEmpty obsUrl basePage with
  | .ok r => r
  | .error _ => default

/-- The successful base-info extraction on `avPage`. -/
def avBase : BaseInfo :=
  match get_base_info sc0 wEmpty avUrl avPage with
  | .ok b => b
  | .error _ => default

/-! ## Helper lemmas -/

theorem findWithRest_append (p : Elem → Bool) (pre : List Elem) (e : Elem)
    (post : List Elem) (hpre : ∀ x ∈ pre, p x = false) (he : p e = true) :
    findWithRest p (pre ++ e :: post) = some post := by
  induction pre with
  | nil => simp [findWithRest, he]
  | cons a pre ih =>
    have ha : p a = false := hpre a (by simp)
    simp only [List.cons_append, findWithRest, ha]
    exact ih fun x hx => hpre x (by simp [hx])

theorem findWithRest_eq_none (p : Elem → Bool) (l : List Elem)
    (h : ∀ x ∈ l, p x = false) : findWithRest p l = none := by
  induction l with
  | nil => rfl
  | cons a l ih =>
    have ha : p a = false := h a (by simp)
    simp only [findWithRest, ha]
    exact ih fun x hx => h x (by simp [hx])

theorem collectFlags_eq (l : List Elem) :
    collectFlags l =
      ((l.takeWhile (fun e => !e.classes.contains "field-label")).filter
        (fun e => e.classes.contains "text_02")).map (fun e => strTrim e.text) := by
  induction l with
  | nil => rfl
  | cons a l ih =>
    simp only [collectFlags, List.takeWhile_cons]
    cases hfl : a.classes.contains "field-label" with
    | true => simp
    | false =>
      cases hv : a.classes.contains "text_02" with
      | true =>
        have hv' : "text_02" ∈ a.classes := by simpa using hv
        simp [List.filter_cons, ih, hv']
      | false =>
        have hv' : "text_02" ∉ a.classes := by simpa using hv
        simp [List.filter_cons, ih, hv']

theorem base_report_id {sc : UtahScraper} {w : World} {url : String}
    {page : ReportPage} {b : BaseInfo}
    (h : get_base_info sc w url page = Except.ok b) :
    b.report_id = lastSegment url := by
  unfold get_base_info at h
  split at h
  · exact absurd h (by simp)
  · split at h
    · exact absurd h (by simp)
    · split at h
      · exact absurd h (by simp)
      · split at h
        · exact absurd h (by simp)
        · injection h with h
          subst h
          rfl

/-! ## Claim theorems -/

/-- C1 (counterexample): normalizing an avalanche page whose "Avalanche Date"
    label is missing raises `TypeError` (from `strptime(None, …)`), not a
    `DataExtractionError` naming the field as the claim states. -/
theorem c1_counterexample :
    normalize_avalanche sc0 wEmpty avUrl basePage = .error .typeError ∧
    exceptIsDataExtraction (normalize_avalanche sc0 wEmpty avUrl basePage) = false := by
  decide

/-- C1 (amended): missing mandatory fields raise Python builtin errors, never
    `DataExtractionError`: a missing "Avalanche Date" label raises `TypeError`,
    a malformed date string raises `ValueError`, a missing location-name label
    makes base extraction raise `AttributeError`; and when the base info
    extracts and the date parses, normalization succeeds — missing optional
    fields never raise. -/
theorem c1_theorem (sc : UtahScraper) (w : World) (url : String) (page : ReportPage) :
    (∀ b, get_base_info sc w url page = .ok b →
      get_field_value page "Avalanche Date" = none →
      normalize_avalanche sc w url page = .error .typeError) ∧
    (∀ b s, get_base_info sc w url page = .ok b →
      get_field_value page "Avalanche Date" = some s → parseLongDate s = none →
      normalize_avalanche sc w url page =
        .error (.valueError "time data does not match format")) ∧
    (∀ c r, get_lat_lon w page = .ok c → get_region page = .ok r →
      findWithRest (isFieldLabel "Location Name or Route") page.elems = none →
      get_base_info sc w url page = .error .attributeError) ∧
    (∀ b s d, get_base_info sc w url page = .ok b →
      get_field_value page "Avalanche Date" = some s → parseLongDate s = some d →
      ∃ r, normalize_avalanche sc w url page = .ok r) := by
  refine ⟨?_, ?_, ?_, ?_⟩
  · intro b hb hd
    simp only [normalize_avalanche, hb, hd]
  · intro b s hb hs hp
    simp only [normalize_avalanche, hb, hs, hp]
  · intro c r hc hr hloc
    simp only [get_base_info, hc, hr, hloc]
  · intro b s d hb hs hp
    simp only [normalize_avalanche, hb, hs, hp]
    exact ⟨_, rfl⟩

/-- C1 (witness): on a page carrying "Wednesday, January 15, 2025" the
    normalizer succeeds even though every optional field is missing. -/
theorem c1_witness : ∃ r, normalize_avalanche sc0 wEmpty avUrl avPage = .ok r :=
  (c1_theorem sc0 wEmpty avUrl avPage).2.2.2 avBase "Wednesday, January 15, 2025"
    (2025, 1, 15) (by decide) (by decide) (by decide)

/-- C3 (counterexample): on the synthetic observation page
    (Location "Days Fork", Region "Salt Lake » Days Fork", Aspect "135",
    Slope Angle "Unknown", no secondary-source link) the produced base record
    has aspect `"135"` — the page value passes through verbatim and is not one
    of the 8 compass labels, contradicting the claimed `aspect = "SE"`. -/
theorem c3_counterexample :
    (get_base_info sc0 wEmpty obsUrl basePage).map
        (fun b => (b.region_id, b.aspect, b.slope_angle)) =
      .ok (some 4, some "135", none) ∧
    (some "135" : Option String) ≠ some "SE" ∧
    "135" ∉ directions := by decide

/-- C3 (amended): on the synthetic observation page the base record has
    region_id = 4, aspect = "135" (primary-page aspect text is kept verbatim;
    only secondary-source bearings go through compass conversion),
    slope_angle absent, and location_name "Days Fork". -/
theorem c3_theorem :
    (get_base_info sc0 wEmpty obsUrl basePage).map
        (fun b => (b.region_id, b.aspect, b.slope_angle, b.location_name)) =
      .ok (some 4, some "135", none, "Days Fork") := by decide

/-- C4 (code bug): coordinate resolution crashes with `AttributeError` when
    the page has no `window.Backdrop` script at all (`script_tag` is `None`
    and `.string` is dereferenced), instead of falling back; the fallback and
    the both-absent outcome do work when the script block is present but the
    `POINT` literal is absent, and the literal is used when present. -/
theorem c4_theorem :
    get_lat_lon wEmpty noScriptPage = .error .attributeError ∧
    get_lat_lon wEmpty basePage = .ok (none, none) ∧
    get_lat_lon wEmpty wktPage = .ok (some "-111.75", some "40.59") := by decide

/-- C8 (counterexample): on "100 80" the code joins all numeric tokens
    (`"10080"` → round(10080/45) mod 8 = 0 → "N"), while the claimed
    first-numeric-token rule gives 100 → round(100/45) mod 8 = 2 → "E". -/
theorem c8_counterexample :
    degreesToCompass (some "100 80") = some "N" ∧
    firstTokenCompass (some "100 80") = some "E" ∧
    degreesToCompass (some "100 80") ≠ firstTokenCompass (some "100 80") := by
  decide

/-- C8 (amended): compass conversion concatenates every numeric token of its
    input and parses the result; on single-token inputs this matches the
    claim: "0"→N, "45"→NE, "359"→N, "360"→N (wrap-around), absent or
    token-free input yields absent, and any produced label is one of the
    8-point table. -/
theorem c8_theorem :
    degreesToCompass none = none ∧
    degreesToCompass (some "0") = some "N" ∧
    degreesToCompass (some "45") = some "NE" ∧
    degreesToCompass (some "359") = some "N" ∧
    degreesToCompass (some "360") = some "N" ∧
    degreesToCompass (some "bad") = none ∧
    degreesToCompass (some "100 80") = some "N" ∧
    ∀ s r, degreesToCompass (some s) = some r → r ∈ directions := by
  refine ⟨by decide, by decide, by decide, by decide, by decide, by decide,
    by decide, ?_⟩
  intro s r h
  simp only [degreesToCompass] at h
  split at h
  · cases h
  · next n k _ =>
    have hlt : roundHalfEven n (45 * 10 ^ k) % 8 < directions.length :=
      Nat.mod_lt _ (by norm_num)
    rw [List.getElem?_eq_getElem hlt] at h
    injection h with h
    rw [← h]
    exact List.getElem_mem hlt

/-- C8 (witness): instantiating the totality clause at "0". -/
theorem c8_witness : "N" ∈ directions :=
  c8_theorem.2.2.2.2.2.2.2 "0" "N" (by decide)

/-- C2 (counterexample): a discovered link `/blog/xyz` raises `ValueError`
    ("blog data is not currently supported"), not an `InvalidDataError` as the
    claim states. -/
theorem c2_counterexample :
    processLink sc0 wPages (some "/blog/xyz") =
      .error (.valueError "blog data is not currently supported") ∧
    exceptIsInvalidData (processLink sc0 wPages (some "/blog/xyz")) = false := by
  decide

/-- C2 (amended): for every fetched link the session classifies by
    `link.split("/")[1]`: segment "avalanche" dispatches to avalanche
    normalization, "observation" to observation normalization, and any other
    segment raises `ValueError` (the Python builtin) naming the segment. -/
theorem c2_theorem (sc : UtahScraper) (w : World) (l : String) (page : ReportPage)
    (hf : w.reportPage ("https://utahavalanchecenter.org" ++ l) = some page) :
    ((strSplit l "/")[1]? = some "avalanche" →
      processLink sc w (some l) =
        (normalize_avalanche sc w ("https://utahavalanchecenter.org" ++ l) page).map
          (fun r => (r.1, Detail.avalanche r.2))) ∧
    ((strSplit l "/")[1]? = some "observation" →
      processLink sc w (some l) =
        (normalize_observation sc w ("https://utahavalanchecenter.org" ++ l) page).map
          (fun r => (r.1, Detail.observation r.2))) ∧
    (∀ seg, (strSplit l "/")[1]? = some seg →
      seg ≠ "avalanche" → seg ≠ "observation" →
      processLink sc w (some l) =
        .error (.valueError (seg ++ " data is not currently supported"))) := by
  refine ⟨?_, ?_, ?_⟩
  · intro h1
    simp only [processLink, pyStrOpt, hf, h1]
    rfl
  · intro h1
    simp only [processLink, pyStrOpt, hf, h1]
    rfl
  · intro seg hseg hne1 hne2
    simp only [processLink, pyStrOpt, hf, hseg]
    rw [if_neg (by simp [hne1]), if_neg (by simp [hne2])]

/-- C2 (witness): the dispatch theorem applied to the link `/blog/xyz`. -/
theorem c2_witness :
    processLink sc0 wPages (some "/blog/xyz") =
      .error (.valueError ("blog" ++ " data is not currently supported")) :=
  (c2_theorem sc0 wPages "/blog/xyz" basePage (by decide)).2.2 "blog"
    (by decide) (by decide) (by decide)

/-- C5 (counterexample): a present-but-empty primary aspect (an "Aspect" label
    whose value div is empty) is overwritten by the secondary source: the
    merged aspect is "NE" from SnowPilot although the primary field is
    present (`some ""`), contradicting "never overwrites a primary value". -/
theorem c5_counterexample :
    get_field_value page5 "Aspect" = some "" ∧
    (get_field_value page5 "Aspect").isSome = true ∧
    get_snow_profile w5 page5 = (some "NE", none, none) ∧
    (get_snow_profile w5 page5).1 ≠ get_field_value page5 "Aspect" := by decide

/-- C5 (amended): when the secondary source loads, the merge is
    precedence-respecting under Python truthiness: if all three primary fields
    are non-`None` (empty strings included) they pass through untouched and the
    secondary source is not consulted; otherwise each merged field equals the
    primary value when it is truthy (present and non-empty) and the secondary
    value when it is not — so only a `None` or empty primary value is filled. -/
theorem c5_theorem (w : World) (page : ReportPage) (u : String) (root : XmlRoot)
    (hu : get_field_value page "Snow Pilot URL" = some u)
    (hok : mkSnowPilot w u = .ok root) :
    ((get_field_value page "Aspect").isSome = true ∧
        (get_field_value page "Elevation").isSome = true ∧
        (normSlope (get_field_value page "Slope Angle")).isSome = true →
      get_snow_profile w page =
        (get_field_value page "Aspect", get_field_value page "Elevation",
          normSlope (get_field_value page "Slope Angle"))) ∧
    (¬((get_field_value page "Aspect").isSome = true ∧
        (get_field_value page "Elevation").isSome = true ∧
        (normSlope (get_field_value page "Slope Angle")).isSome = true) →
      (truthy (get_field_value page "Aspect") = true →
        (get_snow_profile w page).1 = get_field_value page "Aspect") ∧
      (truthy (get_field_value page "Aspect") = false →
        (get_snow_profile w page).1 = root.aspectCompass) ∧
      (truthy (get_field_value page "Elevation") = true →
        (get_snow_profile w page).2.1 = get_field_value page "Elevation") ∧
      (truthy (get_field_value page "Elevation") = false →
        (get_snow_profile w page).2.1 = root.elv) ∧
      (truthy (normSlope (get_field_value page "Slope Angle")) = true →
        (get_snow_profile w page).2.2 = normSlope (get_field_value page "Slope Angle")) ∧
      (truthy (normSlope (get_field_value page "Slope Angle")) = false →
        (get_snow_profile w page).2.2 = root.incline)) := by
  constructor
  · intro h
    obtain ⟨h1, h2, h3⟩ := h
    simp only [get_snow_profile]
    rw [if_pos (by simp [h1, h2, h3])]
  · intro hn
    have hc : ((get_field_value page "Aspect").isSome &&
        ((get_field_value page "Elevation").isSome &&
          (normSlope (get_field_value page "Slope Angle")).isSome)) = false := by
      cases hb : ((get_field_value page "Aspect").isSome &&
          ((get_field_value page "Elevation").isSome &&
            (normSlope (get_field_value page "Slope Angle")).isSome)) with
      | true => exact absurd (by simpa using hb) hn
      | false => rfl
    simp only [get_snow_profile, Bool.and_assoc, hc, Bool.false_eq_true, if_false,
      hu, hok]
    refine ⟨?_, ?_, ?_, ?_, ?_, ?_⟩ <;> intro ht <;> simp [pyOr, ht]

/-- C5 (witness): the merge theorem applied to the empty-aspect page; the
    absent primary aspect clause yields the SnowPilot compass value. -/
theorem c5_witness : (get_snow_profile w5 page5).1 = root5.aspectCompass :=
  ((c5_theorem w5 page5 "spu" root5 (by decide) (by decide)).2
    (by decide)).2.1 (by decide)

/-- C6 (counterexample): when the search page is fetched but the
    `div.view-content` container is missing, link discovery raises
    `NetworkError`, not the distinct `ParsingError` the claim requires. -/
theorem c6_counterexample :
    extract_report_links sc0 wNoVC =
      .error (.networkError sc0.url "Failed to extract report links") ∧
    exceptIsParsing (extract_report_links sc0 wNoVC) = false ∧
    extract_report_links sc0 wEmptyTable = .ok [] := by decide

/-- C6 (amended): link discovery raises `NetworkError` when the search page
    cannot be fetched, and also raises `NetworkError` (never `ParsingError` —
    the `except Exception` clause wraps every failure) when the results
    container or table is missing; a fetched table with zero links returns the
    valid empty sequence. -/
theorem c6_theorem (sc : UtahScraper) (w : World) :
    (w.searchPage = none →
      extract_report_links sc w =
        .error (.networkError sc.url "Failed to extract report links")) ∧
    (∀ doc, w.searchPage = some doc → doc.viewContent = none →
      extract_report_links sc w =
        .error (.networkError sc.url "Failed to extract report links")) ∧
    (∀ doc vc, w.searchPage = some doc → doc.viewContent = some vc →
      vc.table = none →
      extract_report_links sc w =
        .error (.networkError sc.url "Failed to extract report links")) ∧
    (∀ doc vc, w.searchPage = some doc → doc.viewContent = some vc →
      vc.table = some [] → extract_report_links sc w = .ok []) ∧
    exceptIsParsing (extract_report_links sc w) = false := by
  refine ⟨?_, ?_, ?_, ?_, ?_⟩
  · intro h
    simp only [extract_report_links, h]
  · intro doc h1 h2
    simp only [extract_report_links, h1, h2]
  · intro doc vc h1 h2 h3
    simp only [extract_report_links, h1, h2, h3]
  · intro doc vc h1 h2 h3
    simp only [extract_report_links, h1, h2, h3]
    rfl
  · unfold extract_report_links
    cases w.searchPage with
    | none => rfl
    | some doc =>
      obtain ⟨vc⟩ := doc
      cases vc with
      | none => rfl
      | some cd =>
        obtain ⟨t⟩ := cd
        cases t with
        | none => rfl
        | some anchors => rfl

/-- C6 (witness): the discovery theorem applied to a world whose search-page
    fetch fails. -/
theorem c6_witness :
    extract_report_links sc0 wEmpty =
      .error (.networkError sc0.url "Failed to extract report links") :=
  (c6_theorem sc0 wEmpty).1 (by decide)

/-- C7 (counterexample): a fetched page with no anchor mentioning "xml" and an
    outright fetch failure both raise the very same
    `SnowPilotError("Failed to load SnowPilot XML data")` — the no-profile case
    is an error, and the two cases are conflated, contradicting the claim. -/
theorem c7_counterexample :
    mkSnowPilot wNoAnchor "p" =
      .error (.snowPilotError "p" "Failed to load SnowPilot XML data") ∧
    mkSnowPilot wEmpty "p" =
      .error (.snowPilotError "p" "Failed to load SnowPilot XML data") := by decide

/-- C7 (amended): the client raises the same `SnowPilotError` carrying the
    page URL in every failure case — page fetch failure, no anchor whose
    lowercased text contains "xml", and XML fetch/parse failure alike — and
    succeeds exactly when the page loads, an xml anchor exists, and its target
    parses. -/
theorem c7_theorem (w : World) (u : String) :
    (w.spPage u = none →
      mkSnowPilot w u =
        .error (.snowPilotError u "Failed to load SnowPilot XML data")) ∧
    (∀ anchors, w.spPage u = some anchors →
      anchors.find? (fun a => a.href.isSome && strHas (strLower a.text) "xml") = none →
      mkSnowPilot w u =
        .error (.snowPilotError u "Failed to load SnowPilot XML data")) ∧
    (∀ anchors a h, w.spPage u = some anchors →
      anchors.find? (fun a => a.href.isSome && strHas (strLower a.text) "xml") = some a →
      a.href = some h → w.spXml h = none →
      mkSnowPilot w u =
        .error (.snowPilotError u "Failed to load SnowPilot XML data")) ∧
    (∀ anchors a h root, w.spPage u = some anchors →
      anchors.find? (fun a => a.href.isSome && strHas (strLower a.text) "xml") = some a →
      a.href = some h → w.spXml h = some root →
      mkSnowPilot w u = .ok root) := by
  refine ⟨?_, ?_, ?_, ?_⟩
  · intro h1
    simp only [mkSnowPilot, load_xml, h1]
  · intro anchors h1 h2
    simp only [mkSnowPilot, load_xml, h1, h2]
  · intro anchors a h h1 h2 h3 h4
    simp only [mkSnowPilot, load_xml, h1, h2, h3, h4, Option.some_bind]
  · intro anchors a h root h1 h2 h3 h4
    simp only [mkSnowPilot, load_xml, h1, h2, h3, h4, Option.some_bind]

/-- C7 (witness): the client theorem applied to a failing fetch of page "q". -/
theorem c7_witness :
    mkSnowPilot wEmpty "q" =
      .error (.snowPilotError "q" "Failed to load SnowPilot XML data") :=
  (c7_theorem wEmpty "q").1 (by decide)

/-- C9: red-flag extraction returns, in document order, the trimmed texts of
    every `text_02`-tagged sibling following the first "Red Flags" div, cut at
    the first `field-label`-tagged sibling; a present label with zero value
    siblings yields `some []`, a missing label yields `none`, and the two are
    distinguishable. -/
theorem c9_theorem :
    (∀ pre e post ms fs, isRedFlagsLabel e = true →
      (∀ x ∈ pre, isRedFlagsLabel x = false) →
      get_red_flags ⟨pre ++ e :: post, ms, fs⟩ =
        some (((post.takeWhile (fun x => !x.classes.contains "field-label")).filter
          (fun x => x.classes.contains "text_02")).map (fun x => strTrim x.text))) ∧
    (∀ elems ms fs, (∀ x ∈ elems, isRedFlagsLabel x = false) →
      get_red_flags ⟨elems, ms, fs⟩ = none) ∧
    get_red_flags pageEmptyFlags = some [] ∧
    get_red_flags pageOneFlag = some ["Recent Avalanches"] ∧
    get_red_flags noScriptPage = none ∧
    some ([] : List String) ≠ (none : Option (List String)) := by
  refine ⟨?_, ?_, by decide, by decide, by decide, by decide⟩
  · intro pre e post ms fs he hpre
    simp only [get_red_flags, findWithRest_append isRedFlagsLabel pre e post hpre he,
      collectFlags_eq]
  · intro elems ms fs h
    simp only [get_red_flags, findWithRest_eq_none isRedFlagsLabel elems h]

/-- C9 (witness): the extraction theorem applied to a page with one red-flag
    value after the label. -/
theorem c9_witness : get_red_flags pageOneFlag = some ["Recent Avalanches"] :=
  (c9_theorem.1 [] rfLbl [flagVal] none [] (by decide) (by decide)).trans (by decide)

/-- C10: whenever a report normalizes successfully, the base record and its
    detail record (avalanche or observation) carry the same `report_id`, equal
    to the trailing path segment (`split("/")[-1]`) of the report page URL. -/
theorem c10_theorem (sc : UtahScraper) (w : World) (url : String)
    (page : ReportPage) :
    (∀ r, normalize_avalanche sc w url page = .ok r →
      r.1.report_id = lastSegment url ∧ r.2.report_id = lastSegment url) ∧
    (∀ r, normalize_observation sc w url page = .ok r →
      r.1.report_id = lastSegment url ∧ r.2.report_id = lastSegment url) := by
  constructor
  · intro r h
    cases hbase : get_base_info sc w url page with
    | error e => simp [normalize_avalanche, hbase] at h
    | ok base =>
      have hrid := base_report_id hbase
      simp only [normalize_avalanche, hbase] at h
      split at h
      · exact absurd h (by simp)
      · split at h
        · exact absurd h (by simp)
        · injection h with h
          subst h
          exact ⟨hrid, rfl⟩
  · intro r h
    cases hbase : get_base_info sc w url page with
    | error e => simp [normalize_observation, hbase] at h
    | ok base =>
      have hrid := base_report_id hbase
      simp only [normalize_observation, hbase] at h
      injection h with h
      subst h
      exact ⟨hrid, rfl⟩

/-- C10 (witness): both normalizers applied to concrete successful pages share
    the trailing URL segment as report id. -/
theorem c10_witness :
    (avResult.1.report_id = lastSegment avUrl ∧
      avResult.2.report_id = lastSegment avUrl) ∧
    (obsResult.1.report_id = lastSegment obsUrl ∧
      obsResult.2.report_id = lastSegment obsUrl) :=
  ⟨(c10_theorem sc0 wEmpty avUrl avPage).1 avResult (by decide),
   (c10_theorem sc0 wEmpty obsUrl basePage).2 obsResult (by decide)⟩

end Scrape
